import Mathlib

/-!
Shallow embedding of the thermostat REST API server, a Go program consisting
of src/server/server.go and src/server/validate.go (package main).

Modelling conventions:
* Go `int` is modelled as `Int`; Go integer division `/` truncates toward
  zero, which is `Int.tdiv`.
* Go `string` is `String`; the Go zero value of a string is `""` and of an
  int is `0`.
* `time.Time` values are modelled as an abstract integer clock tick; the
  handlers receive the current tick `now` as an explicit argument.
* The Go map `map[int]*thermostat` is modelled as an association list
  `List (Int × thermostat)`; writing `m[k] = v` replaces the binding of `k`
  (appending it at the end), which is sound because map iteration order is
  unspecified.
* Functions that can panic (index out of range) return `Option`, with
  `none` standing for the panic.
* The error `description` strings are reproduced from the source with the
  surrounding single quotes of quoted words dropped.
-/

namespace ThermostatApp

/-- The record type `thermostat` of server.go (fields Id, Name, CurrentTemp,
PreviousTemp, OperatingMode, CoolSetPoint, HeatSetPoint, FanMode,
LastChanged). -/
structure thermostat where
  id : Int
  name : String
  currentTemp : Int
  previousTemp : Int
  operatingMode : String
  coolSetPoint : Int
  heatSetPoint : Int
  fanMode : String
  lastChanged : Int
  deriving Repr, DecidableEq

/-- The request type `updateThermostat` of server.go; `temperature` is the
field Temperature carrying the json key currentTemp. -/
structure updateThermostat where
  name : String
  temperature : Int
  operatingMode : String
  coolSetPoint : Int
  heatSetPoint : Int
  fanMode : String
  deriving Repr, DecidableEq

/-- The error type `errResponse` of server.go. -/
structure errResponse where
  code : Int
  msg : String
  description : String
  deriving Repr, DecidableEq

/-- `validOpModes` as set in `init`. -/
def validOpModes : List String := ["cool", "heat", "off"]

/-- `validFanModes` as set in `init`. -/
def validFanModes : List String := ["auto", "on"]

/-- `validFields` as set in `init`. -/
def validFields : List String :=
  ["name", "currentTemp", "mode", "coolSetPoint", "heatSetPoint", "fan"]

/-- `minCoolSetPt` of server.go. -/
def minCoolSetPt : Int := 30

/-- `maxCoolSetPt` of server.go. -/
def maxCoolSetPt : Int := 100

/-- `minHeatSetPt` of server.go. -/
def minHeatSetPt : Int := 30

/-- `maxHeatSetPt` of server.go. -/
def maxHeatSetPt : Int := 100

/-- `inArray` of server.go / validate.go: linear scan of a string slice. -/
def inArray (char : String) (strs : List String) : Bool :=
  match strs with
  | [] => false
  | a :: rest => if a = char then true else inArray char rest

/-- `validateOpMode` of validate.go. -/
def validateOpMode (val : String) : Option errResponse :=
  if val ≠ "" ∧ inArray val validOpModes = false then
    some { code := 400, msg := "Invalid Operating Mode",
           description := "The operating mode provided is not valid. Valid choices are: cool, heat, or off." }
  else
    none

/-- `validateFanMode` of validate.go. -/
def validateFanMode (val : String) : Option errResponse :=
  if val ≠ "" ∧ inArray val validFanModes = false then
    some { code := 400, msg := "Invalid Fan Mode",
           description := "The fan mode provided is not valid. Valid choices are: auto or on." }
  else
    none

/-- `validateCoolSetPt` of validate.go. -/
def validateCoolSetPt (val : Int) : Option errResponse :=
  if val ≠ 0 ∧ (val > maxCoolSetPt ∨ val < minCoolSetPt) then
    some { code := 400, msg := "Invalid Cool Set Point",
           description := "The cool set point provided is not within the allowed range. It must be between 30 and 100 degrees Fahrenheit." }
  else
    none

/-- `validateHeatSetPt` of validate.go. -/
def validateHeatSetPt (val : Int) : Option errResponse :=
  if val ≠ 0 ∧ (val > maxHeatSetPt ∨ val < minHeatSetPt) then
    some { code := 400, msg := "Invalid Heat Set Point",
           description := "The heat set point provided is not within the allowed range. It must be between 30 and 100 degrees Fahrenheit." }
  else
    none

/-- `validateData` of validate.go: the currentTemp check followed by the four
field validators, short-circuiting on the first error. -/
def validateData (desired : updateThermostat) : Option errResponse :=
  if desired.temperature ≠ 0 then
    some { code := 400, msg := "Non-Writable Field",
           description := "The field currentTemp is not a writable field. You must set the cool or heat set point (coolSetPoint/heatSetPoint) instead." }
  else
    match validateOpMode desired.operatingMode with
    | some e => some e
    | none =>
      match validateFanMode desired.fanMode with
      | some e => some e
      | none =>
        match validateCoolSetPt desired.coolSetPoint with
        | some e => some e
        | none =>
          match validateHeatSetPt desired.heatSetPoint with
          | some e => some e
          | none => none

/-- The guarded map of `currentState`: association list from id to record. -/
abbrev Store := List (Int × thermostat)

/-- The key set of the map (the slice built by `for key := range home.thermostats`). -/
def storeKeys (s : Store) : List Int := s.map Prod.fst

/-- Go map assignment `home.thermostats[k] = v`: any existing binding of `k`
is replaced; the binding is placed at the end (iteration order of a Go map is
unspecified, so the position carries no meaning). -/
def mapSet (s : Store) (k : Int) (v : thermostat) : Store :=
  s.filter (fun p => p.1 != k) ++ [(k, v)]

/-- The error sent by the `Thermostat` getter when the id is absent. -/
def notFoundErr (id : Int) : errResponse :=
  { code := 404, msg := "Not Found",
    description := "No thermostat found for id: " ++ toString id }

/-- The getter `(home *currentState) Thermostat(id)` of server.go: lock,
lookup, unlock; missing id yields a 404 errResponse. -/
def Thermostat (s : Store) (id : Int) : Except errResponse thermostat :=
  match s.lookup id with
  | some t => .ok t
  | none => .error (notFoundErr id)

/-- `(home *currentState) UpdateThermostat(target, desired)` of server.go.
The Go code builds a fresh record `&thermostat{Id: target.Id}`, whose
CurrentTemp and PreviousTemp fields are zero-initialized; they are written
only inside the `temp != target.CurrentTemp` branch, so in the equal case
both stay `0` in the stored result. -/
def UpdateThermostat (target : thermostat) (desired : updateThermostat)
    (now : Int) : thermostat :=
  let name := if desired.name ≠ "" then desired.name else target.name
  let opMode := if desired.operatingMode ≠ "" then desired.operatingMode else target.operatingMode
  let cool := if desired.coolSetPoint ≠ 0 then desired.coolSetPoint else target.coolSetPoint
  let heat := if desired.heatSetPoint ≠ 0 then desired.heatSetPoint else target.heatSetPoint
  let fan := if desired.fanMode ≠ "" then desired.fanMode else target.fanMode
  let temp := Int.tdiv (cool + heat) 2
  let curPrev : Int × Int :=
    if temp ≠ target.currentTemp then (temp, target.currentTemp) else (0, 0)
  { id := target.id, name := name,
    currentTemp := curPrev.1, previousTemp := curPrev.2,
    operatingMode := opMode, coolSetPoint := cool, heatSetPoint := heat,
    fanMode := fan, lastChanged := now }

/-- The store effect of `UpdateThermostat`: `home.thermostats[target.Id] = updated`. -/
def UpdateThermostatStore (s : Store) (target : thermostat)
    (desired : updateThermostat) (now : Int) : Store :=
  mapSet s target.id (UpdateThermostat target desired now)

/-- The id allocation of `AddThermostat`: collect the keys, `sort.Ints`,
index the last element and add 1. Indexing `ints[len(ints)-1]` on an empty
map panics; the panic is modelled as `none`. -/
def nextId (s : Store) : Option Int :=
  match (List.insertionSort (· ≤ ·) (storeKeys s)).getLast? with
  | none => none
  | some k => some (k + 1)

/-- The record built by `AddThermostat` for a freshly allocated id:
defaults are filled for empty fields, and CurrentTemp is the midpoint of the
set points when both are non-zero (else 71); PreviousTemp stays at the Go
zero value. -/
def newThermostatRec (newId : Int) (desired : updateThermostat) (now : Int) :
    thermostat :=
  let name := if desired.name ≠ "" then desired.name else "Thermostat #" ++ toString newId
  let opMode := if desired.operatingMode ≠ "" then desired.operatingMode else "off"
  let cool := if desired.coolSetPoint ≠ 0 then desired.coolSetPoint else 71
  let heat := if desired.heatSetPoint ≠ 0 then desired.heatSetPoint else 71
  let fan := if desired.fanMode ≠ "" then desired.fanMode else "auto"
  let cur := if cool ≠ 0 ∧ heat ≠ 0 then Int.tdiv (cool + heat) 2 else 71
  { id := newId, name := name, currentTemp := cur, previousTemp := 0,
    operatingMode := opMode, coolSetPoint := cool, heatSetPoint := heat,
    fanMode := fan, lastChanged := now }

/-- `(home *currentState) AddThermostat(desired)` of server.go: allocate the
next id (panics on an empty map, modelled as `none`), build the new record
with defaults, insert it, and return the new id together with the new store. -/
def AddThermostat (s : Store) (desired : updateThermostat) (now : Int) :
    Option (Int × Store) :=
  match nextId s with
  | none => none
  | some newId => some (newId, mapSet s newId (newThermostatRec newId desired now))

/-- A JSON value sent bare by `GetField` (a string or an int field). -/
inductive fieldValue
  | strVal (v : String)
  | intVal (v : Int)
  deriving Repr, DecidableEq

/-- The body of an HTTP response produced by a handler. `nullBody` is the
body written when `sendJSON` is handed a nil interface value. -/
inductive respBody
  | errBody (e : errResponse)
  | bare (v : fieldValue)
  | thermoList (ts : List thermostat)
  | nullBody
  deriving Repr, DecidableEq

/-- An HTTP response: status code and body. -/
structure response where
  status : Int
  body : respBody
  deriving Repr, DecidableEq

/-- The 400 error of `GetField` for a field name outside `validFields`. -/
def invalidPropertyErr : errResponse :=
  { code := 400, msg := "Invalid Property",
    description := "The property provided is not a valid property of a thermostat. Valid choices are: name, currentTemp, mode, coolSetPoint, heatSetPoint, or fan." }

/-- The 404 error of `GetField` for a zero-valued field. -/
def noFieldErr (field : String) : errResponse :=
  { code := 404, msg := "Not Found",
    description := "No field " ++ field ++ " exists for requested thermostat." }

/-- `GetField` of server.go: reject unknown field names with 400, then the
switch on the field name; a zero value sets `isEmpty` (404), otherwise the
bare value is sent with 200. A field name hitting no switch case would leave
`returnVal` nil and answer 200 with a null body (unreachable behind the
`validFields` guard, but reproduced faithfully). -/
def GetField (t : thermostat) (field : String) : response :=
  if inArray field validFields = false then
    { status := 400, body := .errBody invalidPropertyErr }
  else
    let rvEmpty : Option fieldValue × Bool :=
      match field with
      | "name" => if t.name = "" then (none, true) else (some (.strVal t.name), false)
      | "currentTemp" => if t.currentTemp = 0 then (none, true) else (some (.intVal t.currentTemp), false)
      | "mode" => if t.operatingMode = "" then (none, true) else (some (.strVal t.operatingMode), false)
      | "coolSetPoint" => if t.coolSetPoint = 0 then (none, true) else (some (.intVal t.coolSetPoint), false)
      | "heatSetPoint" => if t.heatSetPoint = 0 then (none, true) else (some (.intVal t.heatSetPoint), false)
      | "fan" => if t.fanMode = "" then (none, true) else (some (.strVal t.fanMode), false)
      | _ => (none, false)
    if rvEmpty.2 then
      { status := 404, body := .errBody (noFieldErr field) }
    else
      match rvEmpty.1 with
      | some v => { status := 200, body := .bare v }
      | none => { status := 200, body := .nullBody }

/-- Value of a decimal digit character, `none` for a non-digit. -/
def digitVal (c : Char) : Option Nat :=
  if c.isDigit then some (c.toNat - 48) else none

/-- Accumulating decimal evaluation of a digit string; fails on the first
non-digit. -/
def digitsValAux : List Char → Nat → Option Nat
  | [], acc => some acc
  | c :: rest, acc =>
    match digitVal c with
    | none => none
    | some d => digitsValAux rest (acc * 10 + d)

/-- Decimal value of a non-empty all-digit character list. -/
def digitsVal (cs : List Char) : Option Nat :=
  match cs with
  | [] => none
  | _ => digitsValAux cs 0

/-- Go `strconv.Atoi`: optional sign followed by at least one digit.
On failure Go returns the pair `(0, err)`; the Bool is `true` when parsing
succeeded. Overflow of 64-bit int is not modelled (no claim involves it). -/
def Atoi (s : String) : Int × Bool :=
  match s.data with
  | [] => (0, false)
  | c :: rest =>
    let signDigits : Int × List Char :=
      if c = '-' then (-1, rest)
      else if c = '+' then (1, rest)
      else (1, c :: rest)
    match digitsVal signDigits.2 with
    | none => (0, false)
    | some n => (signDigits.1 * (n : Int), true)

/-- The 400 error sent by `HandleRoute` when the id path segment does not
parse as an integer (its description carries the strconv error text, here
abstracted). -/
def invalidIdErr : errResponse :=
  { code := 400, msg := "Invalid identifier provided",
    description := "strconv.Atoi: parsing the id path segment failed" }

/-- Observable outcome of the `HandleRoute` middleware for one request:
the responses it writes (in order), whether the store lookup ran, and
whether control reached the wrapped handler. -/
structure routeOutcome where
  responses : List response
  storeLookup : Bool
  handlerRan : Bool
  deriving Repr, DecidableEq

/-- `HandleRoute` of server.go, for a request whose route carries the given
id path segment (`none` when the route has no id segment). After sending the
400 for an unparsable id the Go code does not return: it falls through to
`home.Thermostat(id)` with the zero id that `strconv.Atoi` returned, so a
404 is also produced and the lookup always runs. -/
def HandleRoute (s : Store) (idParam : Option String) : routeOutcome :=
  match idParam with
  | none => { responses := [], storeLookup := false, handlerRan := true }
  | some str =>
    let idOk := Atoi str
    let sent400 : List response :=
      if idOk.2 = false then [{ status := 400, body := .errBody invalidIdErr }] else []
    match Thermostat s idOk.1 with
    | .error e =>
      { responses := sent400 ++ [{ status := 404, body := .errBody e }],
        storeLookup := true, handlerRan := false }
    | .ok _ =>
      { responses := sent400, storeLookup := true, handlerRan := true }

/-- The first seeded record of `init` (server.go lines 90-99): CurrentTemp 71,
cool/heat set points 68/72; PreviousTemp is zero-initialized. `t0` models the
`time.Now()` tick at process start. -/
def seedThermostat1 (t0 : Int) : thermostat :=
  { id := 1, name := "Downstairs Thermostat", currentTemp := 71,
    previousTemp := 0, operatingMode := "heat", coolSetPoint := 68,
    heatSetPoint := 72, fanMode := "auto", lastChanged := t0 }

/-- The second seeded record of `init` (server.go lines 100-109): CurrentTemp
72, cool/heat set points 69/73. -/
def seedThermostat2 (t0 : Int) : thermostat :=
  { id := 2, name := "Upstairs Thermostat", currentTemp := 72,
    previousTemp := 0, operatingMode := "cool", coolSetPoint := 69,
    heatSetPoint := 73, fanMode := "on", lastChanged := t0 }

/-- The store as seeded by `init`: exactly the two hard-coded records. -/
def initialStore (t1 t2 : Int) : Store :=
  [(1, seedThermostat1 t1), (2, seedThermostat2 t2)]

/-- The all-empty update request: every string field `""`, every int field 0
(the JSON body `\x7b\x7d`). -/
def emptyUpdate : updateThermostat :=
  { name := "", temperature := 0, operatingMode := "", coolSetPoint := 0,
    heatSetPoint := 0, fanMode := "" }

/-- The store states reachable at runtime: the seeded initial store, closed
under the two mutating handlers. An update goes through the middleware
lookup first (hypothesis `hl`); a create contributes its result store when
the operation completes (`ha`). No operation ever removes a record. -/
inductive Reachable : Store → Prop
  | seeded (t1 t2 : Int) : Reachable (initialStore t1 t2)
  | updated {s : Store} {id : Int} {t : thermostat} (d : updateThermostat)
      (now : Int) (hr : Reachable s) (hl : s.lookup id = some t) :
      Reachable (UpdateThermostatStore s t d now)
  | added {s s2 : Store} {i : Int} (d : updateThermostat) (now : Int)
      (hr : Reachable s) (ha : AddThermostat s d now = some (i, s2)) :
      Reachable s2

/-- Lock-discipline events of a store operation: mutex acquire/release and an
access (read or write) of the `home.thermostats` map. -/
inductive lockEv
  | acquire
  | release
  | mapAccess
  deriving Repr, DecidableEq

/-- Event trace of the getter `Thermostat`: `home.Lock()`, the map index
read, deferred `home.Unlock()`. -/
def ThermostatEvents : List lockEv := [.acquire, .mapAccess, .release]

/-- Event trace of `UpdateThermostat`: `home.Lock()`, the map write
`home.thermostats[target.Id] = updated`, `home.Unlock()` (the merge works on
locals and the target snapshot, not on the map). -/
def UpdateThermostatEvents : List lockEv := [.acquire, .mapAccess, .release]

/-- Event trace of `AddThermostat`: `home.Lock()`, the key-range read of the
map, the map write at the new id, `home.Unlock()`. -/
def AddThermostatEvents : List lockEv := [.acquire, .mapAccess, .mapAccess, .release]

/-- Event trace of the `GetThermostats` handler: it iterates
`home.thermostats` directly, with no `home.Lock()` / `home.Unlock()` around
the iteration. -/
def GetThermostatsEvents : List lockEv := [.mapAccess]

/-- All store operations that touch the map, with their traces. -/
def storeOpEvents : List (List lockEv) :=
  [ThermostatEvents, UpdateThermostatEvents, AddThermostatEvents,
   GetThermostatsEvents]

/-- Lock discipline check: every `mapAccess` of the trace happens while the
lock depth is positive, and no release happens with the lock free. -/
def accessesLocked : List lockEv → Nat → Bool
  | [], _ => true
  | .acquire :: r, d => accessesLocked r (d + 1)
  | .release :: r, d =>
    match d with
    | 0 => false
    | e + 1 => accessesLocked r e
  | .mapAccess :: r, d => decide (d ≠ 0) && accessesLocked r d

/-- The 404 error of `GetThermostats` for an empty store. -/
def listNotFoundErr : errResponse :=
  { code := 404, msg := "Not Found", description := "No thermostats were found." }

/-- `GetThermostats` of server.go: collect all records; 404 when there are
none, else 200 with the JSON array of records. -/
def GetThermostats (s : Store) : response :=
  let therms := s.map Prod.snd
  if therms.length = 0 then
    { status := 404, body := .errBody listNotFoundErr }
  else
    { status := 200, body := .thermoList therms }

/-- Written from the words of claim C4: the five checks in the stated fixed
order, returning the error of the first violated check (the error objects are
those of validate.go, which the claim refers to by name). -/
def specValidate (d : updateThermostat) : Option errResponse :=
  if d.temperature ≠ 0 then
    some { code := 400, msg := "Non-Writable Field",
           description := "The field currentTemp is not a writable field. You must set the cool or heat set point (coolSetPoint/heatSetPoint) instead." }
  else if d.operatingMode ≠ "" ∧ d.operatingMode ∉ (["heat", "cool", "off"] : List String) then
    some { code := 400, msg := "Invalid Operating Mode",
           description := "The operating mode provided is not valid. Valid choices are: cool, heat, or off." }
  else if d.fanMode ≠ "" ∧ d.fanMode ∉ (["auto", "on"] : List String) then
    some { code := 400, msg := "Invalid Fan Mode",
           description := "The fan mode provided is not valid. Valid choices are: auto or on." }
  else if d.coolSetPoint ≠ 0 ∧ ¬(30 ≤ d.coolSetPoint ∧ d.coolSetPoint ≤ 100) then
    some { code := 400, msg := "Invalid Cool Set Point",
           description := "The cool set point provided is not within the allowed range. It must be between 30 and 100 degrees Fahrenheit." }
  else if d.heatSetPoint ≠ 0 ∧ ¬(30 ≤ d.heatSetPoint ∧ d.heatSetPoint ≤ 100) then
    some { code := 400, msg := "Invalid Heat Set Point",
           description := "The heat set point provided is not within the allowed range. It must be between 30 and 100 degrees Fahrenheit." }
  else
    none

/-- Whether a field value is the Go zero value of its type. -/
def isZeroValue : fieldValue → Bool
  | .strVal v => v = ""
  | .intVal v => v = 0

/-- Written from the words of claim C6: 400 for a field name outside the
fixed set, 404 when the named field holds its zero value, else 200 with the
bare value. -/
def specGetField (t : thermostat) (field : String) : response :=
  if field ∉ validFields then
    { status := 400, body := .errBody invalidPropertyErr }
  else
    let v : fieldValue :=
      if field = "name" then .strVal t.name
      else if field = "currentTemp" then .intVal t.currentTemp
      else if field = "mode" then .strVal t.operatingMode
      else if field = "coolSetPoint" then .intVal t.coolSetPoint
      else if field = "heatSetPoint" then .intVal t.heatSetPoint
      else .strVal t.fanMode
    if isZeroValue v then
      { status := 404, body := .errBody (noFieldErr field) }
    else
      { status := 200, body := .bare v }

/-- Written from the words of claim C7: 404 for an empty store, else 200 with
exactly the stored records. -/
def specList (s : Store) : response :=
  if s = [] then
    { status := 404, body := .errBody listNotFoundErr }
  else
    { status := 200, body := .thermoList (s.map Prod.snd) }

/-- The cool set point selected by the merge step of `UpdateThermostat`. -/
def mergedCoolSetPoint (target : thermostat) (desired : updateThermostat) : Int :=
  if desired.coolSetPoint ≠ 0 then desired.coolSetPoint else target.coolSetPoint

/-- The heat set point selected by the merge step of `UpdateThermostat`. -/
def mergedHeatSetPoint (target : thermostat) (desired : updateThermostat) : Int :=
  if desired.heatSetPoint ≠ 0 then desired.heatSetPoint else target.heatSetPoint

/-- An update request setting only the set points, to 70 and 72 (a body
passing validation). -/
def setPoints70_72 : updateThermostat :=
  { name := "", temperature := 0, operatingMode := "", coolSetPoint := 70,
    heatSetPoint := 72, fanMode := "" }

/-! ## Helper lemmas -/

/-- `inArray` decides list membership. -/
theorem inArray_iff (c : String) (l : List String) : inArray c l = true ↔ c ∈ l := by
  induction l with
  | nil => simp [inArray]
  | cons a rest ih =>
    by_cases h : a = c
    · subst h; simp [inArray]
    · simp only [inArray, if_neg h, ih, List.mem_cons]
      constructor
      · exact fun hm => Or.inr hm
      · rintro (rfl | hm)
        · exact absurd rfl h
        · exact hm

/-- The last element of a list, when it exists, is a member. -/
theorem getLast?_mem {l : List Int} {g : Int} (h : l.getLast? = some g) : g ∈ l := by
  rcases List.getLast?_eq_some_iff.1 h with ⟨ys, rfl⟩
  simp

/-- In a list sorted ascending, every member is at most the last element. -/
theorem sorted_le_getLast {l : List Int} (hs : l.Sorted (· ≤ ·)) {g : Int}
    (hg : l.getLast? = some g) : ∀ x ∈ l, x ≤ g := by
  induction l with
  | nil => simp at hg
  | cons a rest ih =>
    cases rest with
    | nil =>
      simp only [List.getLast?_singleton, Option.some.injEq] at hg
      subst hg
      simp
    | cons b t =>
      rw [List.getLast?_cons_cons] at hg
      intro x hx
      rcases List.mem_cons.1 hx with rfl | hx2
      · exact List.rel_of_sorted_cons hs g (getLast?_mem hg)
      · exact ih hs.of_cons hg x hx2

/-- With a maximal key `m` present, the sorted-keys allocation yields `m + 1`. -/
theorem nextId_eq {s : Store} {m : Int} (hmem : m ∈ storeKeys s)
    (hmax : ∀ k ∈ storeKeys s, k ≤ m) : nextId s = some (m + 1) := by
  unfold nextId
  have hsorted := List.sorted_insertionSort (· ≤ ·) (storeKeys s)
  have hmem2 : m ∈ List.insertionSort (· ≤ ·) (storeKeys s) :=
    (List.mem_insertionSort _).2 hmem
  have hne : List.insertionSort (· ≤ ·) (storeKeys s) ≠ [] := by
    intro h
    rw [h] at hmem2
    exact absurd hmem2 (List.not_mem_nil m)
  obtain ⟨g, hg⟩ := Option.isSome_iff_exists.1 (List.getLast?_isSome.2 hne)
  have hg_mem : g ∈ storeKeys s := (List.mem_insertionSort _).1 (getLast?_mem hg)
  have h1 : g ≤ m := hmax g hg_mem
  have h2 : m ≤ g := sorted_le_getLast hsorted hg m hmem2
  rw [hg]
  have : g = m := le_antisymm h1 h2
  rw [this]

/-- A key of the store has a record. -/
theorem lookup_of_mem_keys {s : Store} {k : Int} (h : k ∈ storeKeys s) :
    ∃ t, s.lookup k = some t := by
  induction s with
  | nil => simp [storeKeys] at h
  | cons p rest ih =>
    obtain ⟨k1, v⟩ := p
    by_cases hk : k = k1
    · subst hk
      exact ⟨v, by simp [List.lookup_cons]⟩
    · have hmem : k ∈ storeKeys rest := by
        simp only [storeKeys, List.map_cons, List.mem_cons] at h
        rcases h with h | h
        · exact absurd h hk
        · exact h
      obtain ⟨t, ht⟩ := ih hmem
      have hbeq : (k == k1) = false := beq_eq_false_iff_ne.2 hk
      exact ⟨t, by simp [List.lookup_cons, hbeq, ht]⟩

/-- Lookup hits in the left part of an append when it succeeds there. -/
theorem lookup_append_left {s1 s2 : Store} {k : Int} {t : thermostat}
    (h : s1.lookup k = some t) : (s1 ++ s2).lookup k = some t := by
  induction s1 with
  | nil => simp [List.lookup] at h
  | cons p rest ih =>
    obtain ⟨k1, v⟩ := p
    rw [List.cons_append]
    by_cases hk : k = k1
    · subst hk
      simp only [List.lookup_cons, beq_self_eq_true] at h ⊢
      exact h
    · have hbeq : (k == k1) = false := beq_eq_false_iff_ne.2 hk
      simp only [List.lookup_cons, hbeq] at h ⊢
      exact ih h

/-- Writing a fresh key appends the binding, leaving the rest of the list
untouched. -/
theorem mapSet_of_not_mem {s : Store} {k : Int} (v : thermostat)
    (h : k ∉ storeKeys s) : mapSet s k v = s ++ [(k, v)] := by
  unfold mapSet
  congr 1
  rw [List.filter_eq_self]
  intro p hp
  have hmem : p.1 ∈ storeKeys s := List.mem_map.2 ⟨p, hp, rfl⟩
  rw [bne_iff_ne]
  intro he
  exact h (he ▸ hmem)

/-- A map write never empties the store. -/
theorem mapSet_ne_nil (s : Store) (k : Int) (v : thermostat) :
    mapSet s k v ≠ [] := by
  unfold mapSet
  simp

/-- Every reachable store is non-empty: the seed has two records and neither
handler removes one. -/
theorem Reachable_ne_nil {s : Store} (h : Reachable s) : s ≠ [] := by
  induction h with
  | seeded t1 t2 => simp [initialStore]
  | updated d now hr hl ih => exact mapSet_ne_nil _ _ _
  | added d now hr ha ih =>
    unfold AddThermostat at ha
    cases hn : nextId _ with
    | none => rw [hn] at ha; exact absurd ha (by simp)
    | some newId =>
      rw [hn] at ha
      simp only [Option.some.injEq, Prod.mk.injEq] at ha
      rw [← ha.2]
      exact mapSet_ne_nil _ _ _

/-- A non-empty store always has a next id (the indexing is in bounds). -/
theorem nextId_isSome {s : Store} (h : s ≠ []) : (nextId s).isSome = true := by
  have hkeys : storeKeys s ≠ [] := by
    cases s with
    | nil => exact absurd rfl h
    | cons p rest => simp [storeKeys]
  have hne : List.insertionSort (· ≤ ·) (storeKeys s) ≠ [] := by
    intro hcon
    have := (List.perm_insertionSort (· ≤ ·) (storeKeys s)).length_eq
    rw [hcon] at this
    exact hkeys (List.length_eq_zero.1 this.symm)
  obtain ⟨g, hg⟩ := Option.isSome_iff_exists.1 (List.getLast?_isSome.2 hne)
  unfold nextId
  rw [hg]
  rfl

/-- `inArray` returning false decides non-membership. -/
theorem inArray_false_iff (c : String) (l : List String) :
    inArray c l = false ↔ c ∉ l := by
  rw [← inArray_iff]
  cases inArray c l <;> simp

/-- The cool set point validator passes exactly on 0 or the range [30,100]. -/
theorem validateCoolSetPt_none_iff (v : Int) :
    validateCoolSetPt v = none ↔ (v = 0 ∨ (30 ≤ v ∧ v ≤ 100)) := by
  unfold validateCoolSetPt maxCoolSetPt minCoolSetPt
  split_ifs with h
  · simp only [reduceCtorEq, false_iff]
    omega
  · simp only [true_iff]
    omega

/-- The heat set point validator passes exactly on 0 or the range [30,100]. -/
theorem validateHeatSetPt_none_iff (v : Int) :
    validateHeatSetPt v = none ↔ (v = 0 ∨ (30 ≤ v ∧ v ≤ 100)) := by
  unfold validateHeatSetPt maxHeatSetPt minHeatSetPt
  split_ifs with h
  · simp only [reduceCtorEq, false_iff]
    omega
  · simp only [true_iff]
    omega

/-- A request passing `validateData` passes both set point validators. -/
theorem validateData_none_parts {d : updateThermostat}
    (h : validateData d = none) :
    validateCoolSetPt d.coolSetPoint = none ∧
    validateHeatSetPt d.heatSetPoint = none := by
  unfold validateData at h
  by_cases h1 : d.temperature ≠ 0
  · rw [if_pos h1] at h
    exact absurd h (by simp)
  · rw [if_neg h1] at h
    cases h2 : validateOpMode d.operatingMode with
    | some e => rw [h2] at h; exact absurd h (by simp)
    | none =>
      rw [h2] at h
      cases h3 : validateFanMode d.fanMode with
      | some e => rw [h3] at h; exact absurd h (by simp)
      | none =>
        rw [h3] at h
        cases h4 : validateCoolSetPt d.coolSetPoint with
        | some e => rw [h4] at h; exact absurd h (by simp)
        | none =>
          rw [h4] at h
          cases h5 : validateHeatSetPt d.heatSetPoint with
          | some e => rw [h5] at h; exact absurd h (by simp)
          | none => exact ⟨rfl, rfl⟩

/-! ## Claim C4 -/

/-- Claim C4: validation is a pure function examining the five checks in the
fixed order of the claim and short-circuiting on the first violation;
`validateData` coincides with the check order written from the words of the
claim. -/
theorem validateData_eq_specValidate (d : updateThermostat) :
    validateData d = specValidate d := by
  have H2 : (d.operatingMode ≠ "" ∧ inArray d.operatingMode validOpModes = false) ↔
      (d.operatingMode ≠ "" ∧ d.operatingMode ∉ (["heat", "cool", "off"] : List String)) := by
    refine and_congr_right fun _ => ?_
    rw [inArray_false_iff]
    simp only [validOpModes, List.mem_cons, List.not_mem_nil, or_false]
    tauto
  have H3 : (d.fanMode ≠ "" ∧ inArray d.fanMode validFanModes = false) ↔
      (d.fanMode ≠ "" ∧ d.fanMode ∉ (["auto", "on"] : List String)) := by
    refine and_congr_right fun _ => ?_
    rw [inArray_false_iff]
    simp only [validFanModes]
  have H4 : (d.coolSetPoint ≠ 0 ∧ (d.coolSetPoint > maxCoolSetPt ∨ d.coolSetPoint < minCoolSetPt)) ↔
      (d.coolSetPoint ≠ 0 ∧ ¬(30 ≤ d.coolSetPoint ∧ d.coolSetPoint ≤ 100)) := by
    unfold maxCoolSetPt minCoolSetPt
    constructor <;> (intro h; omega)
  have H5 : (d.heatSetPoint ≠ 0 ∧ (d.heatSetPoint > maxHeatSetPt ∨ d.heatSetPoint < minHeatSetPt)) ↔
      (d.heatSetPoint ≠ 0 ∧ ¬(30 ≤ d.heatSetPoint ∧ d.heatSetPoint ≤ 100)) := by
    unfold maxHeatSetPt minHeatSetPt
    constructor <;> (intro h; omega)
  unfold validateData specValidate validateOpMode validateFanMode validateCoolSetPt validateHeatSetPt
  by_cases h1 : d.temperature ≠ 0
  · rw [if_pos h1, if_pos h1]
  · rw [if_neg h1, if_neg h1]
    by_cases h2 : d.operatingMode ≠ "" ∧ inArray d.operatingMode validOpModes = false
    · rw [if_pos h2, if_pos (H2.1 h2)]
    · rw [if_neg h2, if_neg (fun hc => h2 (H2.2 hc))]
      by_cases h3 : d.fanMode ≠ "" ∧ inArray d.fanMode validFanModes = false
      · rw [if_pos h3, if_pos (H3.1 h3)]
      · rw [if_neg h3, if_neg (fun hc => h3 (H3.2 hc))]
        by_cases h4 : d.coolSetPoint ≠ 0 ∧ (d.coolSetPoint > maxCoolSetPt ∨ d.coolSetPoint < minCoolSetPt)
        · rw [if_pos h4, if_pos (H4.1 h4)]
        · rw [if_neg h4, if_neg (fun hc => h4 (H4.2 hc))]
          by_cases h5 : d.heatSetPoint ≠ 0 ∧ (d.heatSetPoint > maxHeatSetPt ∨ d.heatSetPoint < minHeatSetPt)
          · rw [if_pos h5, if_pos (H5.1 h5)]
          · rw [if_neg h5, if_neg (fun hc => h5 (H5.2 hc))]

/-! ## Claim C6 -/

/-- Claim C6: for every get-field request on a resolved record, a field name
outside the fixed set answers 400 Invalid Property, a zero-valued field
answers 404 Not Found, and otherwise the bare field value is answered with
200; `GetField` coincides with the behaviour written from the words of the
claim. -/
theorem GetField_eq_specGetField (t : thermostat) (field : String) :
    GetField t field = specGetField t field := by
  by_cases hf : field ∈ validFields
  · have hmem := hf
    simp only [validFields, List.mem_cons, List.not_mem_nil, or_false] at hmem
    rcases hmem with h | h | h | h | h | h <;> subst h <;>
      simp [GetField, specGetField, isZeroValue, validFields, inArray] <;>
      split_ifs <;> simp_all
  · have harr : inArray field validFields = false := (inArray_false_iff _ _).2 hf
    simp [GetField, specGetField, harr, hf]

/-! ## Claim C7 -/

/-- Claim C7: the list request answers 404 Not Found when the store holds no
records and otherwise 200 with exactly the stored records; `GetThermostats`
coincides with the behaviour written from the words of the claim. -/
theorem GetThermostats_eq_specList (s : Store) :
    GetThermostats s = specList s := by
  unfold GetThermostats specList
  cases s with
  | nil => simp
  | cons p rest => simp

/-- Projections of a conditionally written pair against its zero default:
the shape of the currentTemp/previousTemp write of `UpdateThermostat`. -/
theorem ite_pair_spec (C : Prop) [Decidable C] (A B : Int) :
    if C then
      ((if C then (A, B) else ((0 : Int), (0 : Int))).1 = A ∧
       (if C then (A, B) else ((0 : Int), (0 : Int))).2 = B)
    else
      ((if C then (A, B) else ((0 : Int), (0 : Int))).1 = 0 ∧
       (if C then (A, B) else ((0 : Int), (0 : Int))).2 = 0) := by
  by_cases hc : C
  · simp [if_pos hc]
  · simp [if_neg hc]

/-- Field-by-field characterization of `UpdateThermostat`: the merge picks
the non-empty/non-zero desired fields; currentTemp and previousTemp are
written only when the recomputed midpoint differs from the prior
currentTemp, and otherwise keep the zero values of the fresh Go struct. -/
theorem UpdateThermostat_fields (target : thermostat)
    (desired : updateThermostat) (now : Int) :
    (UpdateThermostat target desired now).id = target.id ∧
    (UpdateThermostat target desired now).name =
      (if desired.name ≠ "" then desired.name else target.name) ∧
    (UpdateThermostat target desired now).operatingMode =
      (if desired.operatingMode ≠ "" then desired.operatingMode else target.operatingMode) ∧
    (UpdateThermostat target desired now).coolSetPoint = mergedCoolSetPoint target desired ∧
    (UpdateThermostat target desired now).heatSetPoint = mergedHeatSetPoint target desired ∧
    (UpdateThermostat target desired now).fanMode =
      (if desired.fanMode ≠ "" then desired.fanMode else target.fanMode) ∧
    (UpdateThermostat target desired now).lastChanged = now ∧
    (if Int.tdiv (mergedCoolSetPoint target desired + mergedHeatSetPoint target desired) 2 ≠ target.currentTemp then
       (UpdateThermostat target desired now).currentTemp =
         Int.tdiv (mergedCoolSetPoint target desired + mergedHeatSetPoint target desired) 2 ∧
       (UpdateThermostat target desired now).previousTemp = target.currentTemp
     else
       (UpdateThermostat target desired now).currentTemp = 0 ∧
       (UpdateThermostat target desired now).previousTemp = 0) := by
  refine ⟨rfl, rfl, rfl, rfl, rfl, rfl, rfl, ?_⟩
  exact ite_pair_spec _ _ _

/-! ## Claim C1 -/

/-- Claim C1 (code bug evaluation): on the reachable record obtained from
seed record 1 by one validated all-empty update (currentTemp 70 equals the
set point midpoint, previousTemp 71), a further validated all-empty update
produces currentTemp 0 and previousTemp 0 instead of the midpoint 70 and the
unchanged previousTemp 71. -/
theorem update_equal_midpoint_zeroes_eval :
    validateData emptyUpdate = none ∧
    (UpdateThermostat (seedThermostat1 0) emptyUpdate 1).currentTemp = 70 ∧
    (UpdateThermostat (seedThermostat1 0) emptyUpdate 1).previousTemp = 71 ∧
    Int.tdiv ((UpdateThermostat (seedThermostat1 0) emptyUpdate 1).coolSetPoint +
      (UpdateThermostat (seedThermostat1 0) emptyUpdate 1).heatSetPoint) 2 = 70 ∧
    (UpdateThermostat (UpdateThermostat (seedThermostat1 0) emptyUpdate 1) emptyUpdate 2).currentTemp = 0 ∧
    (UpdateThermostat (UpdateThermostat (seedThermostat1 0) emptyUpdate 1) emptyUpdate 2).previousTemp = 0 := by
  decide

/-! ## Claim C2 -/

/-- Claim C2 (counterexample): the all-empty update does not leave every
field other than the timestamp unchanged; on seed record 1 it changes
currentTemp (from 71 to the set point midpoint 70). -/
theorem update_empty_not_frame_eval :
    validateData emptyUpdate = none ∧
    (seedThermostat1 0).currentTemp = 71 ∧
    (UpdateThermostat (seedThermostat1 0) emptyUpdate 1).currentTemp = 70 := by
  decide

/-- Claim C2 (amended): the all-empty update leaves id, name, operating
mode, both set points and fan mode unchanged and stamps the last-changed
timestamp with the update time; currentTemp and previousTemp are not part of
the frame: they become the set point midpoint and the prior currentTemp when
midpoint and prior currentTemp differ, and are both reset to 0 otherwise. -/
theorem update_empty_frame (t : thermostat) (now : Int) :
    (UpdateThermostat t emptyUpdate now).id = t.id ∧
    (UpdateThermostat t emptyUpdate now).name = t.name ∧
    (UpdateThermostat t emptyUpdate now).operatingMode = t.operatingMode ∧
    (UpdateThermostat t emptyUpdate now).coolSetPoint = t.coolSetPoint ∧
    (UpdateThermostat t emptyUpdate now).heatSetPoint = t.heatSetPoint ∧
    (UpdateThermostat t emptyUpdate now).fanMode = t.fanMode ∧
    (UpdateThermostat t emptyUpdate now).lastChanged = now ∧
    (if Int.tdiv (t.coolSetPoint + t.heatSetPoint) 2 ≠ t.currentTemp then
       (UpdateThermostat t emptyUpdate now).currentTemp =
         Int.tdiv (t.coolSetPoint + t.heatSetPoint) 2 ∧
       (UpdateThermostat t emptyUpdate now).previousTemp = t.currentTemp
     else
       (UpdateThermostat t emptyUpdate now).currentTemp = 0 ∧
       (UpdateThermostat t emptyUpdate now).previousTemp = 0) := by
  refine ⟨rfl, rfl, rfl, rfl, rfl, rfl, rfl, ?_⟩
  exact ite_pair_spec _ _ _

/-! ## Claim C9 -/

/-- Claim C9 (counterexample): a first update of seed record 1 does not
always set currentTemp to the merged midpoint and previousTemp to the old
currentTemp: the validated update with set points 70/72 has merged midpoint
71 equal to the seeded currentTemp, and the produced record carries
currentTemp 0 (not the midpoint 71) and previousTemp 0 (not 71). -/
theorem seed1_first_update_not_midpoint_eval :
    validateData setPoints70_72 = none ∧
    (seedThermostat1 0).currentTemp = 71 ∧
    Int.tdiv (mergedCoolSetPoint (seedThermostat1 0) setPoints70_72 +
      mergedHeatSetPoint (seedThermostat1 0) setPoints70_72) 2 = 71 ∧
    (UpdateThermostat (seedThermostat1 0) setPoints70_72 9).currentTemp = 0 ∧
    (UpdateThermostat (seedThermostat1 0) setPoints70_72 9).previousTemp = 0 := by
  decide

/-- Claim C9 (amended): in the seeded initial state each record has
currentTemp different from the midpoint of its set points (record 1: 71
versus 70; record 2: 72 versus 71), and any first update whose merged set
point midpoint differs from the prior currentTemp — in particular any
all-empty update of a seeded record — sets currentTemp to that midpoint and
previousTemp to the prior currentTemp. -/
theorem seeded_first_update_midpoint :
    (∀ t0 : Int,
      Int.tdiv ((seedThermostat1 t0).coolSetPoint + (seedThermostat1 t0).heatSetPoint) 2 = 70 ∧
      (seedThermostat1 t0).currentTemp = 71) ∧
    (∀ t0 : Int,
      Int.tdiv ((seedThermostat2 t0).coolSetPoint + (seedThermostat2 t0).heatSetPoint) 2 = 71 ∧
      (seedThermostat2 t0).currentTemp = 72) ∧
    (∀ (t : thermostat) (d : updateThermostat) (now : Int),
      Int.tdiv (mergedCoolSetPoint t d + mergedHeatSetPoint t d) 2 ≠ t.currentTemp →
      (UpdateThermostat t d now).currentTemp =
        Int.tdiv (mergedCoolSetPoint t d + mergedHeatSetPoint t d) 2 ∧
      (UpdateThermostat t d now).previousTemp = t.currentTemp) := by
  refine ⟨fun t0 => ⟨rfl, rfl⟩, fun t0 => ⟨rfl, rfl⟩, fun t d now h => ?_⟩
  have H8 := (UpdateThermostat_fields t d now).2.2.2.2.2.2.2
  rw [if_pos h] at H8
  exact H8

/-- Witness for the amended claim C9: the all-empty update on seed record 1
(midpoint 70 differs from currentTemp 71) yields currentTemp 70 and
previousTemp 71. -/
theorem seeded_first_update_midpoint_witness :
    (UpdateThermostat (seedThermostat1 0) emptyUpdate 1).currentTemp =
      Int.tdiv (mergedCoolSetPoint (seedThermostat1 0) emptyUpdate +
        mergedHeatSetPoint (seedThermostat1 0) emptyUpdate) 2 ∧
    (UpdateThermostat (seedThermostat1 0) emptyUpdate 1).previousTemp =
      (seedThermostat1 0).currentTemp :=
  seeded_first_update_midpoint.2.2 (seedThermostat1 0) emptyUpdate 1 (by decide)

/-! ## Claim C3 -/

/-- Claim C3 (code bug evaluation): for the non-integer id path segment
"abc" on the seeded store, the middleware answers with the 400 invalid
identifier error followed by a second 404 error from the store lookup of the
zero id, the lookup does run, and only the downstream handler is skipped. -/
theorem bad_id_two_errors_eval :
    (Atoi "abc").2 = false ∧
    HandleRoute (initialStore 0 0) (some "abc") =
      { responses := [{ status := 400, body := .errBody invalidIdErr },
                      { status := 404, body := .errBody (notFoundErr 0) }],
        storeLookup := true, handlerRan := false } := by
  decide

/-! ## Claim C10 -/

/-- Claim C10 (code bug evaluation): the three store operations of
`currentState` hold the lock around their map accesses, but the list
handler accesses the map with the lock never acquired. -/
theorem list_handler_map_access_unlocked_eval :
    accessesLocked ThermostatEvents 0 = true ∧
    accessesLocked UpdateThermostatEvents 0 = true ∧
    accessesLocked AddThermostatEvents 0 = true ∧
    accessesLocked GetThermostatsEvents 0 = false ∧
    GetThermostatsEvents ∈ storeOpEvents := by
  decide

/-- The computed current temperature of a freshly created record, written
against its own resulting set points. -/
theorem newThermostatRec_currentTemp (newId : Int) (d : updateThermostat)
    (now : Int) :
    (newThermostatRec newId d now).currentTemp =
      (if (newThermostatRec newId d now).coolSetPoint ≠ 0 ∧
          (newThermostatRec newId d now).heatSetPoint ≠ 0
       then Int.tdiv ((newThermostatRec newId d now).coolSetPoint +
         (newThermostatRec newId d now).heatSetPoint) 2
       else 71) := rfl

/-! ## Claim C5 -/

/-- Claim C5: on a non-empty store with maximal id m, a validated create
request yields id m + 1; the inserted record defaults its omitted fields
(name Thermostat #id, mode off, set points 71/71, fan auto), its currentTemp
is the floor midpoint of the resulting set points, every previously stored
record is unchanged, and the new id is fresh and strictly above every
existing id. -/
theorem AddThermostat_spec (s : Store) (d : updateThermostat) (now m : Int)
    (hv : validateData d = none) (hmem : m ∈ storeKeys s)
    (hmax : ∀ k ∈ storeKeys s, k ≤ m) :
    AddThermostat s d now =
      some (m + 1, s ++ [(m + 1, newThermostatRec (m + 1) d now)]) ∧
    (newThermostatRec (m + 1) d now).id = m + 1 ∧
    (newThermostatRec (m + 1) d now).name =
      (if d.name ≠ "" then d.name else "Thermostat #" ++ toString (m + 1)) ∧
    (newThermostatRec (m + 1) d now).operatingMode =
      (if d.operatingMode ≠ "" then d.operatingMode else "off") ∧
    (newThermostatRec (m + 1) d now).coolSetPoint =
      (if d.coolSetPoint ≠ 0 then d.coolSetPoint else 71) ∧
    (newThermostatRec (m + 1) d now).heatSetPoint =
      (if d.heatSetPoint ≠ 0 then d.heatSetPoint else 71) ∧
    (newThermostatRec (m + 1) d now).fanMode =
      (if d.fanMode ≠ "" then d.fanMode else "auto") ∧
    (newThermostatRec (m + 1) d now).currentTemp =
      Int.fdiv ((newThermostatRec (m + 1) d now).coolSetPoint +
        (newThermostatRec (m + 1) d now).heatSetPoint) 2 ∧
    (m + 1) ∉ storeKeys s ∧
    (∀ k ∈ storeKeys s, k < m + 1) ∧
    (∀ k ∈ storeKeys s,
      (s ++ [(m + 1, newThermostatRec (m + 1) d now)]).lookup k = s.lookup k) ∧
    storeKeys (s ++ [(m + 1, newThermostatRec (m + 1) d now)]) =
      storeKeys s ++ [m + 1] := by
  have hfresh : (m + 1) ∉ storeKeys s := by
    intro hmem2
    have := hmax _ hmem2
    omega
  have hlt : ∀ k ∈ storeKeys s, k < m + 1 := by
    intro k hk
    have := hmax k hk
    omega
  have hnext := nextId_eq hmem hmax
  have hms : mapSet s (m + 1) (newThermostatRec (m + 1) d now) =
      s ++ [(m + 1, newThermostatRec (m + 1) d now)] :=
    mapSet_of_not_mem _ hfresh
  obtain ⟨hc, hh⟩ := validateData_none_parts hv
  have hcool := (validateCoolSetPt_none_iff _).1 hc
  have hheat := (validateHeatSetPt_none_iff _).1 hh
  have hcooldef : (newThermostatRec (m + 1) d now).coolSetPoint =
      (if d.coolSetPoint ≠ 0 then d.coolSetPoint else 71) := rfl
  have hheatdef : (newThermostatRec (m + 1) d now).heatSetPoint =
      (if d.heatSetPoint ≠ 0 then d.heatSetPoint else 71) := rfl
  have hcoolrange : 30 ≤ (newThermostatRec (m + 1) d now).coolSetPoint ∧
      (newThermostatRec (m + 1) d now).coolSetPoint ≤ 100 := by
    rw [hcooldef]
    split_ifs with h
    · rcases hcool with h0 | hr
      · exact absurd h0 h
      · exact hr
    · constructor <;> norm_num
  have hheatrange : 30 ≤ (newThermostatRec (m + 1) d now).heatSetPoint ∧
      (newThermostatRec (m + 1) d now).heatSetPoint ≤ 100 := by
    rw [hheatdef]
    split_ifs with h
    · rcases hheat with h0 | hr
      · exact absurd h0 h
      · exact hr
    · constructor <;> norm_num
  refine ⟨?_, rfl, rfl, rfl, rfl, rfl, rfl, ?_, hfresh, hlt, ?_, ?_⟩
  · unfold AddThermostat
    rw [hnext]
    show some (m + 1, mapSet s (m + 1) (newThermostatRec (m + 1) d now)) =
      some (m + 1, s ++ [(m + 1, newThermostatRec (m + 1) d now)])
    rw [hms]
  · rw [newThermostatRec_currentTemp]
    rw [if_pos ⟨by omega, by omega⟩]
    have hsum : 0 ≤ (newThermostatRec (m + 1) d now).coolSetPoint +
        (newThermostatRec (m + 1) d now).heatSetPoint := by omega
    rw [Int.tdiv_eq_ediv hsum (by norm_num),
      Int.fdiv_eq_ediv _ (by norm_num)]
  · intro k hk
    obtain ⟨t, ht⟩ := lookup_of_mem_keys hk
    rw [ht]
    exact lookup_append_left ht
  · unfold storeKeys
    rw [List.map_append]
    rfl

/-- Witness for claim C5: creating on the seeded store with the all-empty
request yields id 3 and appends the defaulted record. -/
theorem AddThermostat_spec_witness :
    AddThermostat (initialStore 0 0) emptyUpdate 3 =
      some (3, initialStore 0 0 ++ [(3, newThermostatRec 3 emptyUpdate 3)]) ∧
    (3 : Int) ∉ storeKeys (initialStore 0 0) :=
  ⟨(AddThermostat_spec (initialStore 0 0) emptyUpdate 3 2 (by decide) (by decide)
      (by decide)).1,
   (AddThermostat_spec (initialStore 0 0) emptyUpdate 3 2 (by decide) (by decide)
      (by decide)).2.2.2.2.2.2.2.2.1⟩

/-! ## Claim C8 -/

/-- Claim C8: every reachable store is non-empty (the seed has two records,
updates replace and creates insert, nothing deletes), so the sorted-keys
indexing of the id allocation is in bounds and `AddThermostat` never panics
on a reachable store. -/
theorem AddThermostat_never_panics (s : Store) (hr : Reachable s) :
    s ≠ [] ∧ (nextId s).isSome = true ∧
    ∀ (d : updateThermostat) (now : Int),
      (AddThermostat s d now).isSome = true := by
  have hne := Reachable_ne_nil hr
  have hnext := nextId_isSome hne
  refine ⟨hne, hnext, fun d now => ?_⟩
  obtain ⟨k, hk⟩ := Option.isSome_iff_exists.1 hnext
  unfold AddThermostat
  rw [hk]
  rfl

/-- Witness for claim C8: the seeded initial store is reachable, non-empty,
and a create on it completes. -/
theorem AddThermostat_never_panics_witness :
    initialStore 0 0 ≠ [] ∧
    (AddThermostat (initialStore 0 0) emptyUpdate 1).isSome = true :=
  ⟨(AddThermostat_never_panics _ (Reachable.seeded 0 0)).1,
   (AddThermostat_never_panics _ (Reachable.seeded 0 0)).2.2 emptyUpdate 1⟩

end ThermostatApp
